import Mathlib

/-!
Shallow embedding of the session-summary pipeline of this repository
(`src/backend/session_summarizer.py`, `src/backend/claude_integration.py`,
`src/backend/summary_storage.py`) and proofs of the spec claims about it.

Conventions used throughout:
* Python values parsed from JSON are modelled by the inductive `Json`
  (JSON numbers are modelled as integers; the transcripts this tool reads
  only contain strings, objects, arrays, booleans and null in the fields
  the code touches).
* `json.loads` is an external library call; it is modelled as a parameter
  `parse : String → Option Json` (`none` = `json.JSONDecodeError`).
* Python `str.strip()` is modelled by `pyStrip` (leading and trailing
  whitespace removed; Python also strips some rarer Unicode space
  characters, which none of the strings here contain).
* `hashlib.md5(x).hexdigest()` is a deterministic function of `x` used only
  as a dictionary key; it is modelled by the preimage string itself
  (md5 collisions are ignored).
* Python dicts holding heterogeneous result payloads are modelled by
  structures whose absent keys are `Option.none`.
-/

/-- Model of a Python value produced by `json.loads`. -/
inductive Json where
  | str (s : String)
  | num (n : Int)
  | bool (b : Bool)
  | null
  | arr (items : List Json)
  | obj (fields : List (String × Json))

/-- Python decimal rendering of a natural number (`str(n)` for `n ≥ 0`). -/
def natStr (n : Nat) : String :=
  if n < 10 then String.singleton (Nat.digitChar n)
  else natStr (n / 10) ++ String.singleton (Nat.digitChar (n % 10))
decreasing_by exact Nat.div_lt_self (by omega) (by omega)

/-- Python decimal rendering of an integer (`str(n)`). -/
def intStr (n : Int) : String :=
  if n < 0 then "-" ++ natStr n.natAbs else natStr n.natAbs

/-- Python truthiness (`bool(v)`) for a parsed JSON value. -/
def pyTruthy : Json → Bool
  | .str s => s ≠ ""
  | .num n => n ≠ 0
  | .bool b => b
  | .null => false
  | .arr items => !items.isEmpty
  | .obj fields => !fields.isEmpty

mutual
/-- Python `repr(v)` for a parsed JSON value.  Strings are rendered between
single quotes; this matches Python for strings without quotes, backslashes
or control characters (the only ones this development instantiates). -/
def pyRepr : Json → String
  | .str s => "\x27" ++ s ++ "\x27"
  | .num n => intStr n
  | .bool b => if b then "True" else "False"
  | .null => "None"
  | .arr items => "[" ++ pyReprItems items ++ "]"
  | .obj fields => "\x7b" ++ pyReprFields fields ++ "\x7d"

/-- Comma-separated `repr` of list items, as in Python `repr(list)`. -/
def pyReprItems : List Json → String
  | [] => ""
  | [x] => pyRepr x
  | x :: y :: rest => pyRepr x ++ ", " ++ pyReprItems (y :: rest)

/-- Comma-separated `repr` of dict items, as in Python `repr(dict)`. -/
def pyReprFields : List (String × Json) → String
  | [] => ""
  | [(k, v)] => "\x27" ++ k ++ "\x27: " ++ pyRepr v
  | (k, v) :: f :: rest => "\x27" ++ k ++ "\x27: " ++ pyRepr v ++ ", " ++ pyReprFields (f :: rest)
end

/-- Python `str(v)` for a parsed JSON value (as interpolated by an f-string). -/
def pyStr : Json → String
  | .str s => s
  | v => pyRepr v

/-- Python `d.get(key, default)` for a parsed JSON object; callers that may
receive a non-dict match on the shape first, mirroring the `AttributeError`
the real `.get` would raise there.  Keys of a dict produced by `json.loads`
are unique, so first-match lookup is exact. -/
def jget (j : Json) (key : String) (default : Json) : Json :=
  match j with
  | .obj fields => ((fields.lookup key).getD default)
  | _ => default

/-- Python `s.strip()`: remove leading and trailing whitespace. -/
def pyStrip (s : String) : String :=
  String.mk (((s.data.dropWhile Char.isWhitespace).reverse.dropWhile Char.isWhitespace).reverse)

/-!
## Transcript Reader — `SessionSummarizer._load_session_file` (lines 42-52)

The loop strips each line, skips blank lines, parses the rest with
`json.loads`, appends successes and skips `JSONDecodeError` lines.
`parse` is the model of `json.loads`.
-/

/-- One iteration step of the line loop of `_load_session_file`. -/
def loadLine (parse : String → Option Json) (acc : List Json) (line : String) : List Json :=
  let stripped := pyStrip line
  if stripped = "" then acc
  else
    match parse stripped with
    | some record => acc ++ [record]
    | none => acc

/-- The `messages` list built by `_load_session_file` from the file's lines. -/
def loadMessages (parse : String → Option Json) (lines : List String) : List Json :=
  lines.foldl (loadLine parse) []

/-!
## Conversation Extractor — `SessionSummarizer._extract_conversation` (lines 66-106)
-/

/-- Python `v == "lit"` for a parsed value `v` and a string literal: true
exactly when `v` is that string. -/
def isStrVal (j : Json) (s : String) : Bool :=
  match j with
  | .str t => t = s
  | _ => false

/-- Values collected by `text_parts.append(block.get("text", ""))` over the
blocks of an assistant message whose content is a list: dict blocks tagged
`"text"` contribute their `"text"` value (default `""`), other blocks are
ignored. -/
def textBlockValues (blocks : List Json) : List Json :=
  blocks.filterMap fun block =>
    match block with
    | .obj _ => if isStrVal (jget block "type" .null) "text" then some (jget block "text" (.str "")) else none
    | _ => none

/-- Python `"\n".join(parts)`: succeeds only when every part is a string,
otherwise `join` raises `TypeError` (caught by the per-message handler,
which skips the message). -/
def pyJoinLines (parts : List Json) : Option String :=
  (parts.mapM fun part => match part with | Json.str s => some s | _ => none).map
    (String.intercalate "\n")

/-- The text a message contributes before the emptiness check: for a user
message the f-string rendering of its content, for an assistant message the
newline-join of its text blocks (or of the verbatim string content).
Messages of other types, malformed messages and messages whose processing
raises contribute `""`. -/
def eventText (msg : Json) : String :=
  match msg with
  | .obj _ =>
    if isStrVal (jget msg "type" (.str "")) "user" then
      match jget msg "message" (.obj []) with
      | .obj mfields => pyStr (jget (.obj mfields) "content" (.str ""))
      | _ => ""
    else if isStrVal (jget msg "type" (.str "")) "assistant" then
      match jget msg "message" (.obj []) with
      | .obj mfields =>
        match jget (.obj mfields) "content" (.arr []) with
        | .arr blocks => (pyJoinLines (textBlockValues blocks)).getD ""
        | .str s => s
        | _ => ""
      | _ => ""
    else ""
  | _ => ""

/-- The tagged part a message contributes to `conversation_parts`, or `none`
when the message is skipped (wrong type, falsy user content, blank assistant
text, or an exception caught by the per-message handler). -/
def extractPart (msg : Json) : Option String :=
  match msg with
  | .obj _ =>
    if isStrVal (jget msg "type" (.str "")) "user" then
      match jget msg "message" (.obj []) with
      | .obj mfields =>
        let content := jget (.obj mfields) "content" (.str "")
        if pyTruthy content then some ("👤 Usuário: " ++ pyStr content) else none
      | _ => none
    else if isStrVal (jget msg "type" (.str "")) "assistant" then
      match jget msg "message" (.obj []) with
      | .obj mfields =>
        match jget (.obj mfields) "content" (.arr []) with
        | .arr blocks =>
          match pyJoinLines (textBlockValues blocks) with
          | some fullText => if pyStrip fullText ≠ "" then some ("🤖 Claude: " ++ fullText) else none
          | none => none
        | .str s => if pyStrip s ≠ "" then some ("🤖 Claude: " ++ s) else none
        | _ => none
      | _ => none
    else none
  | _ => none

/-- The `conversation_parts` list built by `_extract_conversation`. -/
def conversationParts (messages : List Json) : List String :=
  messages.filterMap extractPart

/-- `_extract_conversation`: the ConversationText of a message sequence. -/
def extract_conversation (messages : List Json) : String :=
  String.intercalate "\n\n" (conversationParts messages)

/-!
## Summary Requester — `ClaudeViewer` (`claude_integration.py`)
-/

/-- `base_instruction` of `_create_summary_prompt`. -/
def baseInstruction : String :=
  "Analise esta conversa do Claude Code e crie um resumo estruturado em português brasileiro."

/-- The `format_instruction` picked by `_create_summary_prompt` for each
summary type (the three built-in templates and the default one). -/
def formatInstructionFor (summary_type : String) : String :=
  if summary_type = "conciso" then
    "\nFormato CONCISO (máximo 20 palavras apenas):\n📋 **Contexto**: [tipo de projeto/problema]\n🎯 **Objetivo**: [o que foi solicitado]\n✅ **Resultado**: [o que foi implementado/resolvido]\n🔧 **Tecnologias**: [principais ferramentas]\n\nResumo ultra-conciso em 20 palavras:"
  else if summary_type = "detalhado" then
    "\nFormato DETALHADO (máximo 400 palavras):\n📋 **Contexto Completo**: [situação e background do projeto]\n🎯 **Objetivos**: [todos os goals e requisitos discutidos]\n⚙️ **Implementação**: [detalhes técnicos, arquitetura, decisões]\n✅ **Resultados**: [tudo que foi entregue e funcionalidades]\n🔧 **Tecnologias**: [stack completo utilizado]\n💡 **Insights**: [aprendizados e decisões importantes]\n🔄 **Próximos Passos**: [se mencionados na conversa]\n\nResumo detalhado:"
  else if summary_type = "bullet_points" then
    "\nFormato BULLET POINTS:\n📋 **Contexto**:\n   • [ponto 1]\n   • [ponto 2]\n\n🎯 **Objetivos**:\n   • [objetivo 1]\n   • [objetivo 2]\n\n✅ **Implementações**:\n   • [implementação 1]\n   • [implementação 2]\n\n🔧 **Tecnologias**:\n   • [tech 1]\n   • [tech 2]\n\nLista estruturada:"
  else
    "\nFormato (máximo 200 palavras):\n📋 **Contexto**: [projeto/problema]\n🎯 **Objetivo**: [solicitação]\n✅ **Resultado**: [implementação]\n\nResumo:"

/-- `max_conv_length` of `_create_summary_prompt` (line 259). -/
def maxConvLength : Nat := 8000

/-- The truncation notice prepended when the conversation is cut
(line 262; the trailing newline is part of the prepended literal). -/
def truncNotice : String :=
  "[...conversa truncada para mostrar as partes mais recentes...]\n"

/-- Truncation step of `_create_summary_prompt` (lines 260-262): texts longer
than `max_conv_length` are replaced by their trailing `max_conv_length`
characters with the truncation notice prepended. -/
def truncateConversation (conversation_text : String) : String :=
  if conversation_text.length > maxConvLength then
    truncNotice ++ conversation_text.drop (conversation_text.length - maxConvLength)
  else conversation_text

/-- `_create_summary_prompt` (lines 199-272): the prompt f-string. -/
def create_summary_prompt (conversation_text summary_type : String) : String :=
  baseInstruction ++ "\n\n" ++ formatInstructionFor summary_type ++
    "\n\nConversa para análise:\n" ++ truncateConversation conversation_text ++ "\n"

/-- Is `needle` a contiguous sublist of `hay`? -/
def listContains (needle : List Char) : List Char → Bool
  | [] => needle.isEmpty
  | c :: rest => needle.isPrefixOf (c :: rest) || listContains needle rest

/-- Python `needle in hay` on strings. -/
def strContains (hay needle : String) : Bool :=
  listContains needle.toList hay.toList

/-- The metric lines at which response collection stops
(`line.startswith("📊 Tokens:") or line.startswith("💰 Custo:")`). -/
def isMetricsLine (l : String) : Bool :=
  l.startsWith "📊 Tokens:" || l.startsWith "💰 Custo:"

/-- Response extraction of `ClaudeViewer.generate_summary` (lines 124-166):
locate the line after the `📝 Claude:` anchor (skipping line 0), collect
until a metrics line, fall back to the `**Contexto**:` scan when the result
is blank or shorter than 50 characters, and to the whole raw output when the
anchor is absent. -/
def extractSummaryContent (rawOutput : String) : String :=
  let lines := rawOutput.splitOn "\n"
  match lines.enum.find? (fun p => decide (0 < p.1) && strContains p.2 "📝 Claude:") with
  | some (i, _) =>
    let responseLines := (lines.drop (i + 1)).takeWhile (fun l => !isMetricsLine l)
    let content := pyStrip (String.intercalate "\n" responseLines)
    if content = "" || content.length < 50 then
      match lines.findIdx? (fun l => strContains l "**Contexto**:") with
      | some idx =>
        let cleanLines := (lines.drop idx).takeWhile (fun l => !isMetricsLine l)
        pyStrip (String.intercalate "\n" cleanLines)
      | none => content
    else content
  | none => rawOutput

/-- Outcome of the one `subprocess.run` of the external summarizer:
either the process completed with a return code and captured output, or
`subprocess.run` raised (`TimeoutExpired` on timeout, `OSError` etc.),
carrying `str(e)`. -/
inductive ExtOutcome where
  | completed (returncode : Int) (stdout : String) (stderr : String)
  | failed (excMsg : String)

/-- The heuristic metrics dict of a successful generation (lines 169-188).
The Python cost floats `0.000003` / `0.000015` are modelled by the exact
rationals they denote. -/
structure Metrics where
  input_tokens : Nat
  output_tokens : Nat
  cost : ℚ
  summary_length : Nat

/-- Session metadata attached to a summary result: either the
`_get_session_metadata` dict of a session, or the `custom_metadata` dict of
`generate_summary_from_content` (whose constant fields
`content_source = "user_edited"` and `custom_edit = True` are omitted). -/
structure SessionMetadata where
  total_messages : Nat
  user_messages : Nat
  assistant_messages : Nat
  first_message : Json
  last_message : Json
  duration : String
  directory : String
  session_id : String

inductive SessionMeta where
  | fromSession (m : SessionMetadata)
  | fromCustom (content_length : Nat) (estimated_messages : Nat)

/-- A summary result dict.  The failure dicts carry only `success`, `error`
and `summary`; keys absent from a given dict are `none`. -/
structure Res where
  success : Bool
  summary : String
  error : Option String
  stype : Option String
  metrics : Option Metrics
  session_metadata : Option SessionMeta
  generated_at : Option String
  conversation_length : Option Nat

/-- The `{"success": False, "error": e, "summary": ""}` failure dict. -/
def failRes (e : String) : Res :=
  { success := false, summary := "", error := some e, stype := none,
    metrics := none, session_metadata := none, generated_at := none,
    conversation_length := none }

/-- `ClaudeViewer.generate_summary` (lines 80-197).  `sdkOk` is whether
`_initialize_sdk` succeeds; when it does, the external capability is invoked
exactly once with outcome `outcome`; every failure is converted to a
structured failure dict by the surrounding handler. -/
def claude_generate (sdkOk : Bool) (outcome : ExtOutcome)
    (conversation_text summary_type : String) : Res :=
  if sdkOk then
    match outcome with
    | .failed m => failRes m
    | .completed code out err =>
      if code = 0 then
        let prompt := create_summary_prompt conversation_text summary_type
        let raw := pyStrip out
        let content := extractSummaryContent raw
        let inputTokens := prompt.length / 4
        let outputTokens := content.length / 4
        let cost : ℚ := (inputTokens : ℚ) * (3 / 1000000) + (outputTokens : ℚ) * (15 / 1000000)
        let ms : Metrics := ⟨inputTokens, outputTokens, cost, content.length⟩
        { success := true, summary := pyStrip content, error := none,
          stype := some summary_type, metrics := some ms,
          session_metadata := none, generated_at := none,
          conversation_length := none }
      else failRes ("Claude SDK erro (código " ++ intStr code ++ "): " ++ err)
  else failRes "Claude SDK não pôde ser inicializado"

/-!
## Orchestrator — `SessionSummarizer` (`session_summarizer.py`)
-/

/-- Is the parsed value a Python dict? -/
def isObjJson : Json → Bool
  | .obj _ => true
  | _ => false

/-- `SessionSummarizer._get_session_metadata` (lines 108-143).  Returns
`none` when some message is not a dict, in which case `msg.get` raises
`AttributeError` (caught only by the outer handler of `generate_summary`).
`durationOf` models the `datetime.fromisoformat` arithmetic of the inner
`try` block, whose own exceptions leave `duration = "N/A"`; it is an
arbitrary function of the two timestamp values. -/
def sessionMetadataOf (durationOf : Json → Json → String) (messages : List Json)
    (directory session_id : String) : Option SessionMetadata :=
  if messages.all isObjJson then
    let firstMsg := messages.headD (.obj [])
    let lastMsg := messages.getLastD (.obj [])
    let firstTime := jget firstMsg "timestamp" (.str "")
    let lastTime := jget lastMsg "timestamp" (.str "")
    some { total_messages := messages.length,
           user_messages := (messages.filter (fun m => isStrVal (jget m "type" .null) "user")).length,
           assistant_messages := (messages.filter (fun m => isStrVal (jget m "type" .null) "assistant")).length,
           first_message := firstTime,
           last_message := lastTime,
           duration := if pyTruthy firstTime && pyTruthy lastTime then durationOf firstTime lastTime else "N/A",
           directory := directory,
           session_id := session_id }
  else none

/-- `SessionSummarizer._get_cache_key` (lines 28-31): md5 hex digest of
`"{directory}:{session_id}:{summary_type}"`, modelled by the digested
string itself. -/
def cacheKey (directory session_id summary_type : String) : String :=
  directory ++ ":" ++ session_id ++ ":" ++ summary_type

/-- The mutable state of a `SessionSummarizer` process: the in-memory
`self.cache` dict plus a count of invocations of the external capability
(used to index the outcome stream `ext`). -/
structure SummState where
  cache : List (String × Res)
  calls : Nat

/-- The error dict produced by the outer handler of `generate_summary` when
`_get_session_metadata` raises on a non-dict message.  The Python error text
interpolates `str(AttributeError)`; the modelled text stands for it. -/
def metadataErrorRes : Res :=
  failRes "Erro interno: mensagem da sessão não é um dicionário"

/-- The successful `final_result` dict of `generate_summary` (lines 199-207). -/
def finalResOf (summaryResult : Res) (metadata : SessionMetadata)
    (summary_type now conversationText : String) : Res :=
  { success := true, summary := summaryResult.summary, error := none,
    stype := some summary_type,
    session_metadata := some (SessionMeta.fromSession metadata),
    metrics := summaryResult.metrics, generated_at := some now,
    conversation_length := some conversationText.length }

/-- `generate_summary` after a cache miss with a loadable, nonempty
conversation (lines 186-213): invoke the external capability once, return
its failure as-is, attach metadata and cache the result on success, and let
the outer handler turn a metadata exception into an internal-error dict. -/
def session_generate_invoke (parse : String → Option Json)
    (durationOf : Json → Json → String) (ext : Nat → ExtOutcome) (sdkOk : Bool)
    (lines : List String) (now : String) (st : SummState)
    (directory session_id summary_type : String) : Res × SummState :=
  if (claude_generate sdkOk (ext st.calls)
        (extract_conversation (loadMessages parse lines)) summary_type).success then
    match sessionMetadataOf durationOf (loadMessages parse lines) directory session_id with
    | some metadata =>
      (finalResOf (claude_generate sdkOk (ext st.calls)
          (extract_conversation (loadMessages parse lines)) summary_type)
        metadata summary_type now (extract_conversation (loadMessages parse lines)),
       ⟨st.cache ++ [(cacheKey directory session_id summary_type,
          finalResOf (claude_generate sdkOk (ext st.calls)
              (extract_conversation (loadMessages parse lines)) summary_type)
            metadata summary_type now (extract_conversation (loadMessages parse lines)))],
        st.calls + (if sdkOk then 1 else 0)⟩)
    | none => (metadataErrorRes, ⟨st.cache, st.calls + (if sdkOk then 1 else 0)⟩)
  else
    (claude_generate sdkOk (ext st.calls)
        (extract_conversation (loadMessages parse lines)) summary_type,
     ⟨st.cache, st.calls + (if sdkOk then 1 else 0)⟩)

/-- `generate_summary` after a cache miss (lines 168-213): load the session
file, fail on an absent file or an empty extracted conversation, otherwise
proceed to the external invocation. -/
def session_generate_fresh (parse : String → Option Json)
    (durationOf : Json → Json → String) (ext : Nat → ExtOutcome) (sdkOk : Bool)
    (file : Option (List String)) (now : String) (st : SummState)
    (directory session_id summary_type : String) : Res × SummState :=
  match file with
  | none => (failRes ("Não foi possível carregar sessão " ++ directory ++ "/" ++ session_id), st)
  | some lines =>
    if pyStrip (extract_conversation (loadMessages parse lines)) = "" then
      (failRes "Conversa vazia ou não processável", st)
    else
      session_generate_invoke parse durationOf ext sdkOk lines now st
        directory session_id summary_type

/-- `SessionSummarizer.generate_summary` (lines 145-221), one request.
Parameters model the ambient effects: `parse` is `json.loads`, `durationOf`
the duration arithmetic, `sdkOk` whether `_initialize_sdk` succeeds,
`ext n` the outcome of the `n`-th invocation of the external capability,
`file` the lines of `{directory}/{session_id}.jsonl` (`none` = absent or
unreadable), `now` the `datetime.now().isoformat()` of this request.
Returns the result dict and the new state.  The cache is consulted first
(lines 162-166) and only a successful fresh result is stored under the
fingerprint (lines 209-210). -/
def session_generate (parse : String → Option Json) (durationOf : Json → Json → String)
    (ext : Nat → ExtOutcome) (sdkOk : Bool) (file : Option (List String)) (now : String)
    (st : SummState) (directory session_id summary_type : String) : Res × SummState :=
  match st.cache.lookup (cacheKey directory session_id summary_type) with
  | some cached => (cached, st)
  | none =>
    session_generate_fresh parse durationOf ext sdkOk file now st
      directory session_id summary_type

/-- Python `hay.count(needle)`: number of non-overlapping occurrences,
scanning left to right. -/
def countOccAux (needle : List Char) : List Char → Nat
  | [] => 0
  | c :: rest =>
    if needle.isPrefixOf (c :: rest) then
      1 + countOccAux needle (rest.drop (needle.length - 1))
    else countOccAux needle rest
termination_by l => l.length
decreasing_by
  · simp only [List.length_cons]
    have := List.length_drop (needle.length - 1) rest
    omega
  · simp [List.length_cons]

def countOcc (hay needle : String) : Nat :=
  if needle = "" then hay.length + 1 else countOccAux needle.toList hay.toList

/-- `SessionSummarizer.generate_summary_from_content` (lines 267-327), one
request.  `calls` is the invocation count before the request; the second
component of the result is the count after it. -/
def generate_summary_from_content (ext : Nat → ExtOutcome) (sdkOk : Bool)
    (calls : Nat) (now : String) (custom_content summary_type : String) : Res × Nat :=
  if pyStrip custom_content = "" then
    (failRes "Conteúdo customizado vazio", calls)
  else
    let summaryResult := claude_generate sdkOk (ext calls) custom_content summary_type
    let calls1 := calls + (if sdkOk then 1 else 0)
    if summaryResult.success then
      let customMeta := SessionMeta.fromCustom custom_content.length
        (countOcc custom_content "👤 Usuário:" + countOcc custom_content "🤖 Claude:")
      ({ success := true, summary := summaryResult.summary, error := none,
         stype := some summary_type, session_metadata := some customMeta,
         metrics := summaryResult.metrics, generated_at := some now,
         conversation_length := some custom_content.length }, calls1)
    else (summaryResult, calls1)

/-!
## Summary Store — `SummaryStorage` (`summary_storage.py`)

The per-session file `{directory}/{session_id}_summaries.json` is modelled
by a `FileState`; the filesystem outside this one file is not involved in
any claim about the store.
-/

/-- A persisted `StoredSummary` record (the `new_summary` dict of
`save_summary`, lines 65-77). -/
structure StoredSummary where
  id : String
  session_id : String
  directory : String
  timestamp : String
  summary_type : String
  summary_content : String
  custom_prompt : String
  metrics : Option Metrics
  session_metadata : Option SessionMeta
  conversation_length : Nat
  generated_at : String

/-- The `summary_data` dict passed to `save_summary`; keys the caller did
not set are `none` and fall back to the `.get` defaults. -/
structure SummaryData where
  stype : Option String
  summary : Option String
  custom_prompt : Option String
  metrics : Option Metrics
  session_metadata : Option SessionMeta
  conversation_length : Option Nat
  generated_at : Option String

/-- State of one session's summaries file: absent, present but failing
`json.load`, or holding a parsed list of records. -/
inductive FileState where
  | absent
  | unreadable
  | stored (entries : List StoredSummary)

/-- `SummaryStorage._generate_summary_id` (lines 30-33): the first 12 hex
digits of the md5 of `"{session_id}:{summary_type}:{timestamp}:{custom_prompt}"`,
modelled by the digested string itself. -/
def summaryIdOf (session_id summary_type timestamp custom_prompt : String) : String :=
  session_id ++ ":" ++ summary_type ++ ":" ++ timestamp ++ ":" ++ custom_prompt

/-- Python `l[-n:]`. -/
def takeLast (n : Nat) (l : List α) : List α :=
  l.drop (l.length - n)

/-- The `new_summary` record built by `save_summary` (lines 56-77), with the
`.get` defaults of the source. -/
def mkStoredSummary (directory session_id : String) (data : SummaryData)
    (now : String) : StoredSummary :=
  let stype := data.stype.getD "conciso"
  { id := summaryIdOf session_id stype now (data.custom_prompt.getD ""),
    session_id := session_id, directory := directory,
    timestamp := now, summary_type := stype,
    summary_content := data.summary.getD "",
    custom_prompt := data.custom_prompt.getD "",
    metrics := data.metrics, session_metadata := data.session_metadata,
    conversation_length := data.conversation_length.getD 0,
    generated_at := data.generated_at.getD now }

/-- `SummaryStorage.save_summary` (lines 35-94): load the existing list
(`[]` when the file is absent or fails `json.load`, lines 48-54), append
the new record, keep the last 20 entries, write the list back.  `now` is
`datetime.now().isoformat()`.  Returns the new file state and the id. -/
def save_summary (fs : FileState) (directory session_id : String)
    (data : SummaryData) (now : String) : FileState × String :=
  let existing : List StoredSummary :=
    match fs with
    | .stored entries => entries
    | _ => []
  let newSummary := mkStoredSummary directory session_id data now
  (.stored (takeLast 20 (existing ++ [newSummary])), newSummary.id)

/-- Python `a <= b` on strings: lexicographic comparison of code points. -/
def charListLe : List Char → List Char → Bool
  | [], _ => true
  | _ :: _, [] => false
  | a :: as, b :: bs =>
    if a.toNat < b.toNat then true
    else if b.toNat < a.toNat then false
    else charListLe as bs

def pyStrLe (a b : String) : Bool :=
  charListLe a.data b.data

/-- Insert a later-in-file record into a newest-first sorted list, after
every record with an equal or later timestamp (the stable placement of
CPython's `list.sort`). -/
def insertNewest (x : StoredSummary) : List StoredSummary → List StoredSummary
  | [] => [x]
  | y :: ys => if pyStrLe x.timestamp y.timestamp then y :: insertNewest x ys else x :: y :: ys

/-- Stable descending sort by the `timestamp` key
(`summaries.sort(key=..., reverse=True)`, line 108): sorted newest-first,
records with equal timestamps staying in file order. -/
def sortNewestFirst (entries : List StoredSummary) : List StoredSummary :=
  entries.foldl (fun acc x => insertNewest x acc) []

/-- `SummaryStorage.get_summaries_for_session` (lines 96-114): the sorted
list, or `[]` when the file is absent (line 101) or any exception occurs
while reading, parsing or sorting it (lines 112-114). -/
def get_summaries_for_session : FileState → List StoredSummary
  | .absent => []
  | .unreadable => []
  | .stored entries => sortNewestFirst entries

/-- `SummaryStorage.delete_summary` (lines 138-164): filter out the records
whose id matches; report `false` without writing when nothing matched, when
the file is absent (line 143) or when an exception occurs (lines 162-164). -/
def delete_summary (fs : FileState) (summary_id : String) : FileState × Bool :=
  match fs with
  | .absent => (.absent, false)
  | .unreadable => (.unreadable, false)
  | .stored entries =>
    let updated := entries.filter (fun s => s.id ≠ summary_id)
    if updated.length = entries.length then (.stored entries, false)
    else (.stored updated, true)

/-- File states reachable through the store's own operations, starting from
no file. -/
inductive ReachableFile : FileState → Prop
  | init : ReachableFile .absent
  | save (fs : FileState) (directory session_id : String) (data : SummaryData)
      (now : String) : ReachableFile fs →
      ReachableFile (save_summary fs directory session_id data now).1
  | del (fs : FileState) (summary_id : String) : ReachableFile fs →
      ReachableFile (delete_summary fs summary_id).1

/-!
## Definitions written from the spec's words (for refinement comparison)
-/

/-- Is the parsed value a string? -/
def isStrJson : Json → Bool
  | .str _ => true
  | _ => false

/-- The text of one content block as claim C3 reads it: blocks tagged
`"text"` contribute their text, other block kinds are ignored. -/
def claimBlockText (block : Json) : Option String :=
  if isStrVal (jget block "type" .null) "text" then
    some (match jget block "text" (.str "") with | .str s => s | _ => "")
  else none

/-- Per-event text extraction exactly as claim C3 states it: string content
is used verbatim; a sequence of blocks contributes the concatenated texts of
its `"text"`-tagged blocks, other kinds ignored.  (Content shapes the claim
does not mention contribute nothing.) -/
def claimEventText (content : Json) : String :=
  match content with
  | .str s => s
  | .arr blocks => String.join (blocks.filterMap claimBlockText)
  | _ => ""

/-- The extractor as claims C3/C7 and spec §4.2 describe it: each event's
text is obtained by `claimEventText` from its message content, tagged by
speaker, and events whose extracted text is empty are dropped. -/
def claimExtractPart (msg : Json) : Option String :=
  match msg with
  | .obj _ =>
    let content := jget (jget msg "message" (.obj [])) "content" (.str "")
    let t := claimEventText content
    if isStrVal (jget msg "type" (.str "")) "user" then
      if t = "" then none else some ("👤 Usuário: " ++ t)
    else if isStrVal (jget msg "type" (.str "")) "assistant" then
      if t = "" then none else some ("🤖 Claude: " ++ t)
    else none
  | _ => none

/-- The ConversationText the claimed extraction rule would produce. -/
def claimExtract (messages : List Json) : String :=
  String.intercalate "\n\n" (messages.filterMap claimExtractPart)

/-!
## Concrete instances used by witnesses and counterexamples

`parse0` models `json.loads` on the concrete lines below: each listed line
is real JSON whose parse is the listed value; everything else is treated as
malformed (the lines it is applied to in the development are indeed not
JSON). -/

/-- A well-formed user event line and its parse. -/
def jsonlLine0 : String :=
  "\x7b\"type\": \"user\", \"message\": \x7b\"content\": \"oi\"\x7d\x7d"

def msgU : Json :=
  .obj [("type", .str "user"), ("message", .obj [("content", .str "oi")])]

def parse0 : String → Option Json :=
  fun s => if s = jsonlLine0 then some msgU else none

def durationOf0 : Json → Json → String := fun _ _ => "N/A"

/-- Outcome stream whose first invocation raises and whose later invocations
complete successfully. -/
def extFlaky : Nat → ExtOutcome :=
  fun n => if n = 0 then .failed "Command timed out after 120 seconds"
           else .completed 0 "resumo da sessão gerado" ""

/-- Outcome stream that always completes successfully. -/
def extOk : Nat → ExtOutcome :=
  fun _ => .completed 0 "resumo gerado com sucesso" ""

/-- An event whose shapes exercise claim C3: a user event whose message
content is a list of blocks containing one text block. -/
def mkUserEvent (content : Json) : Json :=
  .obj [("type", .str "user"), ("message", .obj [("content", content)])]

def mkAssistantEvent (content : Json) : Json :=
  .obj [("type", .str "assistant"), ("message", .obj [("content", content)])]

def cxUserBlockEvent : Json :=
  mkUserEvent (.arr [.obj [("type", .str "text"), ("text", .str "hi")]])

/-- The four-line session of claim C7: two user lines, one assistant line
with a text block, one assistant line with only a tool-call block. -/
def scenarioMsgs : List Json :=
  [mkUserEvent (.str "primeira pergunta"),
   mkAssistantEvent (.arr [.obj [("type", .str "text"), ("text", .str "primeira resposta")]]),
   mkUserEvent (.str "segunda pergunta"),
   mkAssistantEvent (.arr [.obj [("type", .str "tool_use"), ("name", .str "Bash")]])]

/-- Empty summary-data payload (every key left to its `.get` default). -/
def dataNone : SummaryData := ⟨none, none, none, none, none, none, none⟩

/-- The three save timestamps of the delete-by-id scenario and the ids the
store derives from them. -/
def tsA : String := "2024-01-01T10:00:00"
def tsB : String := "2024-01-01T11:00:00"
def tsC : String := "2024-01-01T12:00:00"

def idA : String := summaryIdOf "s" "conciso" tsA ""
def idB : String := summaryIdOf "s" "conciso" tsB ""
def idC : String := summaryIdOf "s" "conciso" tsC ""

def fsA : FileState := (save_summary .absent "d" "s" dataNone tsA).1
def fsAB : FileState := (save_summary fsA "d" "s" dataNone tsB).1
def fsABC : FileState := (save_summary fsAB "d" "s" dataNone tsC).1
def fsAC : FileState := (delete_summary fsABC idB).1

/-- Two requests for the same fingerprint whose first external invocation
raises and whose second succeeds (claim C1's counterexample run). -/
def cxStep1 : Res × SummState :=
  session_generate parse0 durationOf0 extFlaky true (some [jsonlLine0])
    "2024-01-01T00:00:00" ⟨[], 0⟩ "proj" "sess" "conciso"

def cxStep2 : Res × SummState :=
  session_generate parse0 durationOf0 extFlaky true (some [jsonlLine0])
    "2024-01-01T00:00:00" cxStep1.2 "proj" "sess" "conciso"

/-- Two requests for the same fingerprint whose first succeeds (claim C1's
witness run). -/
def wStep1 : Res × SummState :=
  session_generate parse0 durationOf0 extOk true (some [jsonlLine0])
    "t1" ⟨[], 0⟩ "projw" "sessw" "conciso"

def wStep2 : Res × SummState :=
  session_generate parse0 durationOf0 extOk true (some [jsonlLine0])
    "t2" wStep1.2 "projw" "sessw" "conciso"

/-- A successful request followed by a request for the same fingerprint
after the session file became empty (claim C8's counterexample run). -/
def c8Step1 : Res × SummState :=
  session_generate parse0 durationOf0 extOk true (some [jsonlLine0])
    "t1" ⟨[], 0⟩ "proj8" "sess8" "conciso"

def c8Step2 : Res × SummState :=
  session_generate parse0 durationOf0 extOk true (some [])
    "t2" c8Step1.2 "proj8" "sess8" "conciso"

/-- The file of claim C2's witness: one JSON line, one malformed line, one
empty line and one whitespace-only line. -/
def wLines : List String := [jsonlLine0, "\x7binválido", "", "   "]

/-- The failure behaviours of claim C6: the SDK cannot be initialized, the
subprocess raised (timeout included), or it exited with a nonzero code. -/
def extFailure (sdkOk : Bool) (outcome : ExtOutcome) : Prop :=
  sdkOk = false ∨ (∃ m, outcome = .failed m) ∨
    (∃ code out err, outcome = .completed code out err ∧ code ≠ 0)

/-- What claim C5 asserts of a long conversation text: the conversation
embedded in the prompt is the truncation notice followed by the trailing
`maxConvLength` characters of the original (so its length is exactly
`maxConvLength` plus the notice), the embedded portion is a suffix of the
original text, and it is not the leading portion whenever the two differ. -/
def TruncationSpec (text summary_type : String) : Prop :=
  truncateConversation text = truncNotice ++ text.drop (text.length - maxConvLength) ∧
  (text.drop (text.length - maxConvLength)).length = maxConvLength ∧
  (truncateConversation text).length = truncNotice.length + maxConvLength ∧
  text.take (text.length - maxConvLength) ++ text.drop (text.length - maxConvLength) = text ∧
  create_summary_prompt text summary_type =
    baseInstruction ++ "\n\n" ++ formatInstructionFor summary_type ++
      "\n\nConversa para análise:\n" ++
      (truncNotice ++ text.drop (text.length - maxConvLength)) ++ "\n" ∧
  (text.take maxConvLength ≠ text.drop (text.length - maxConvLength) →
    truncateConversation text ≠ truncNotice ++ text.take maxConvLength)

/-- A conversation text one character over the configured maximum. -/
def bigText : String := String.mk (List.replicate 8001 'a')

/-- A stored record used by the retention witness. -/
def dummyStored : StoredSummary := mkStoredSummary "d" "s" dataNone "2024-01-01T00:00:00"

/-- A stored record used by the delete witness. -/
def recW : StoredSummary := mkStoredSummary "dw" "sw" dataNone "2024-02-02T00:00:00"

/-!
## Helper lemmas (shared)
-/

theorem string_length_drop (a : String) (n : Nat) : (a.drop n).length = a.length - n := by
  cases a with
  | mk l => simp [String.length]

theorem string_length_zero_iff (a : String) : a.length = 0 ↔ a = "" := by
  cases a with
  | mk l =>
    constructor
    · intro h
      simp [String.length] at h
      simp [h]
    · intro h
      simp [h]

theorem string_take_drop (a : String) (n : Nat) : a.take n ++ a.drop n = a := by
  apply String.ext
  simp

theorem string_append_left_cancel {a b c : String} (h : a ++ b = a ++ c) : b = c := by
  apply String.ext
  have hd := congrArg String.data h
  simp at hd
  exact hd

theorem string_append_ne_empty {a b : String} (h : a ≠ "") : a ++ b ≠ "" := by
  intro he
  apply h
  have hl := congrArg String.length he
  rw [String.length_append] at hl
  have h0 : ("" : String).length = 0 := rfl
  exact (string_length_zero_iff a).mp (by omega)

theorem string_singleton_length (c : Char) : (String.singleton c).length = 1 := by
  simp [String.singleton, String.push, String.length]

theorem natStr_ne_empty (n : Nat) : natStr n ≠ "" := by
  intro h
  have hl := congrArg String.length h
  have h0 : ("" : String).length = 0 := rfl
  rw [natStr] at hl
  split at hl
  · rw [string_singleton_length] at hl; omega
  · rw [String.length_append, string_singleton_length] at hl; omega

theorem intStr_ne_empty (n : Int) : intStr n ≠ "" := by
  unfold intStr
  split
  · exact string_append_ne_empty (by decide)
  · exact natStr_ne_empty _

theorem pyRepr_arr_eq (items : List Json) :
    pyRepr (.arr items) = "[" ++ pyReprItems items ++ "]" := by
  simp [pyRepr]

theorem pyRepr_obj_eq (fields : List (String × Json)) :
    pyRepr (.obj fields) = "\x7b" ++ pyReprFields fields ++ "\x7d" := by
  simp [pyRepr]

theorem pyStr_empty_not_truthy {c : Json} (h : pyStr c = "") : pyTruthy c = false := by
  cases c with
  | str s => simpa [pyStr, pyTruthy] using h
  | num n => exact absurd (by simpa [pyStr, pyRepr] using h) (intStr_ne_empty n)
  | bool b =>
    cases b
    · rfl
    · exact absurd h (by simp [pyStr, pyRepr])
  | null => exact absurd h (by simp [pyStr, pyRepr])
  | arr items =>
    rw [show pyStr (Json.arr items) = pyRepr (Json.arr items) from rfl, pyRepr_arr_eq] at h
    rw [show ("[" ++ pyReprItems items ++ "]" : String) = ("[" ++ pyReprItems items) ++ "]" from rfl] at h
    exact absurd h (string_append_ne_empty (string_append_ne_empty (by decide)))
  | obj fields =>
    rw [show pyStr (Json.obj fields) = pyRepr (Json.obj fields) from rfl, pyRepr_obj_eq] at h
    rw [show ("\x7b" ++ pyReprFields fields ++ "\x7d" : String) = ("\x7b" ++ pyReprFields fields) ++ "\x7d" from rfl] at h
    exact absurd h (string_append_ne_empty (string_append_ne_empty (by decide)))

theorem lookup_append_last {β : Type} (l : List (String × β)) (k : String) (v : β)
    (h : l.lookup k = none) : (l ++ [(k, v)]).lookup k = some v := by
  induction l with
  | nil => simp [List.lookup]
  | cons p rest ih =>
    rcases p with ⟨a, b⟩
    rw [List.cons_append]
    cases hka : (k == a) with
    | false =>
      simp only [List.lookup, hka] at h ⊢
      exact ih h
    | true =>
      simp only [List.lookup, hka] at h
      cases h

theorem foldl_loadLine (parse : String → Option Json) (hp : parse "" = none) :
    ∀ (lines : List String) (acc : List Json),
      lines.foldl (loadLine parse) acc = acc ++ lines.filterMap (fun l => parse (pyStrip l)) := by
  intro lines
  induction lines with
  | nil => intro acc; simp
  | cons l ls ih =>
    intro acc
    rw [List.foldl_cons, List.filterMap_cons, ih]
    unfold loadLine
    by_cases h0 : pyStrip l = ""
    · rw [if_pos h0, h0, hp]
    · rw [if_neg h0]
      cases hpl : parse (pyStrip l) with
      | none => simp
      | some v => simp

theorem length_insertNewest (x : StoredSummary) (l : List StoredSummary) :
    (insertNewest x l).length = l.length + 1 := by
  induction l with
  | nil => rfl
  | cons y ys ih =>
    unfold insertNewest
    split
    · simp [List.length_cons, ih]
    · simp

theorem length_sortNewestFirst (l : List StoredSummary) :
    (sortNewestFirst l).length = l.length := by
  have key : ∀ (l : List StoredSummary) (acc : List StoredSummary),
      (l.foldl (fun acc x => insertNewest x acc) acc).length = acc.length + l.length := by
    intro l
    induction l with
    | nil => intro acc; simp
    | cons y ys ih =>
      intro acc
      rw [List.foldl_cons, ih, length_insertNewest]
      simp only [List.length_cons]
      omega
  simpa using key l []

/-!
## Claim theorems
-/

/-- C2: for every JSONL session file, the Reader returns exactly the events
of the lines that `json.loads` parses, in their original relative order
(stated as: the loaded message list is the in-order `filterMap` of the
parses, and its length is the count of parseable lines).  The hypothesis
records that `json.loads` rejects the empty string, which every JSON parser
does. -/
theorem reader_returns_parsed_lines_in_order (parse : String → Option Json)
    (hp : parse "" = none) (lines : List String) :
    loadMessages parse lines = lines.filterMap (fun l => parse (pyStrip l)) ∧
    (loadMessages parse lines).length = lines.countP (fun l => (parse (pyStrip l)).isSome) := by
  have h1 : loadMessages parse lines = lines.filterMap (fun l => parse (pyStrip l)) := by
    unfold loadMessages
    simpa using foldl_loadLine parse hp lines []
  refine ⟨h1, ?_⟩
  rw [h1, List.length_filterMap_eq_countP]

theorem reader_returns_parsed_lines_in_order_witness :
    parse0 "" = none ∧
    (loadMessages parse0 wLines = wLines.filterMap (fun l => parse0 (pyStrip l)) ∧
     (loadMessages parse0 wLines).length = wLines.countP (fun l => (parse0 (pyStrip l)).isSome)) :=
  ⟨rfl, reader_returns_parsed_lines_in_order parse0 rfl wLines⟩

/-- C5: for every conversation text longer than the configured maximum, the
conversation embedded in the prompt is exactly the configured maximum length
plus the truncation marker and consists of the trailing portion of the
original text, not the leading portion. -/
theorem prompt_truncates_to_trailing_window (text summary_type : String)
    (h : maxConvLength < text.length) : TruncationSpec text summary_type := by
  have htr : truncateConversation text =
      truncNotice ++ text.drop (text.length - maxConvLength) := by
    unfold truncateConversation
    rw [if_pos h]
  refine ⟨htr, ?_, ?_, string_take_drop text _, ?_, ?_⟩
  · rw [string_length_drop]; omega
  · rw [htr, String.length_append, string_length_drop]; omega
  · unfold create_summary_prompt
    rw [htr]
  · intro hne heq
    rw [htr] at heq
    exact hne (string_append_left_cancel heq).symm

theorem prompt_truncates_to_trailing_window_witness :
    maxConvLength < bigText.length ∧ TruncationSpec bigText "conciso" :=
  have hlen : maxConvLength < bigText.length := by
    have h1 : bigText.length = 8001 := by
      rw [bigText, String.mk_length, List.length_replicate]
    rw [h1]
    decide
  ⟨hlen, prompt_truncates_to_trailing_window bigText "conciso" hlen⟩

/-- C6: for every input and every failure behaviour of the external
capability (SDK unavailable, nonzero exit, timeout or raised exception), the
Requester returns success `false`, an error string and an empty summary; the
total function `claude_generate` models that no exception escapes. -/
theorem requester_failure_is_structured (sdkOk : Bool) (outcome : ExtOutcome)
    (conversation_text summary_type : String) (h : extFailure sdkOk outcome) :
    (claude_generate sdkOk outcome conversation_text summary_type).success = false ∧
    (claude_generate sdkOk outcome conversation_text summary_type).summary = "" ∧
    (claude_generate sdkOk outcome conversation_text summary_type).error.isSome = true := by
  rcases h with h | ⟨m, rfl⟩ | ⟨code, out, err, rfl, hc⟩
  · subst h
    simp [claude_generate, failRes]
  · cases sdkOk <;> simp [claude_generate, failRes]
  · cases sdkOk
    · simp [claude_generate, failRes]
    · simp only [claude_generate, if_true]
      rw [if_neg hc]
      simp [failRes]

theorem requester_failure_is_structured_witness :
    extFailure false (.failed "erro simulado") ∧
    ((claude_generate false (.failed "erro simulado") "texto" "conciso").success = false ∧
     (claude_generate false (.failed "erro simulado") "texto" "conciso").summary = "" ∧
     (claude_generate false (.failed "erro simulado") "texto" "conciso").error.isSome = true) :=
  ⟨Or.inl rfl, requester_failure_is_structured false (.failed "erro simulado")
    "texto" "conciso" (Or.inl rfl)⟩

/-- C10: listing the summaries of a session whose summaries file is absent,
or cannot be read or parsed, returns the empty list rather than raising. -/
theorem list_missing_or_corrupt_file_empty :
    get_summaries_for_session .absent = [] ∧
    get_summaries_for_session .unreadable = [] :=
  ⟨rfl, rfl⟩

/-- C7: every event whose extracted text is empty is dropped from the
conversation, and the four-line scenario session (two user lines, two
assistant lines, one of which holds only a tool-call block) yields exactly
3 tagged turns. -/
theorem empty_extracted_text_dropped :
    (∀ msg : Json, eventText msg = "" → extractPart msg = none) ∧
    (conversationParts scenarioMsgs).length = 3 := by
  refine ⟨?_, rfl⟩
  intro msg h
  unfold eventText at h
  unfold extractPart
  cases msg with
  | str s => rfl
  | num n => rfl
  | bool b => rfl
  | null => rfl
  | arr items => rfl
  | obj fields =>
    by_cases hu : isStrVal (jget (Json.obj fields) "type" (Json.str "")) "user" = true
    · simp only [if_pos hu] at h ⊢
      cases hm : jget (Json.obj fields) "message" (Json.obj []) with
      | obj mfields =>
        simp only [hm] at h ⊢
        have ht := pyStr_empty_not_truthy h
        simp [ht]
      | str s => simp [hm]
      | num n => simp [hm]
      | bool b => simp [hm]
      | null => simp [hm]
      | arr l => simp [hm]
    · simp only [if_neg hu] at h ⊢
      by_cases ha : isStrVal (jget (Json.obj fields) "type" (Json.str "")) "assistant" = true
      · simp only [if_pos ha] at h ⊢
        cases hm : jget (Json.obj fields) "message" (Json.obj []) with
        | obj mfields =>
          simp only [hm] at h ⊢
          cases hc : jget (Json.obj mfields) "content" (Json.arr []) with
          | arr blocks =>
            simp only [hc] at h ⊢
            cases hj : pyJoinLines (textBlockValues blocks) with
            | some t =>
              rw [hj, Option.getD_some] at h
              subst h
              simp [hj]
              rfl
            | none => simp [hj]
          | str s =>
            simp only [hc] at h ⊢
            subst h
            simp
            rfl
          | num n => simp [hc]
          | bool b => simp [hc]
          | null => simp [hc]
          | obj o => simp [hc]
        | str s => simp [hm]
        | num n => simp [hm]
        | bool b => simp [hm]
        | null => simp [hm]
        | arr l => simp [hm]
      · simp only [if_neg ha]

theorem empty_extracted_text_dropped_witness :
    eventText (mkUserEvent (.str "")) = "" ∧
    extractPart (mkUserEvent (.str "")) = none :=
  ⟨rfl, empty_extracted_text_dropped.1 (mkUserEvent (.str "")) rfl⟩

/-- C3 fails on the code: for a user event whose message content is a list
of blocks, the extractor does not concatenate the texts of the text-tagged
blocks; it interpolates the Python rendering of the whole list.  At the
concrete event below the code and the claimed rule produce different
ConversationText. -/
theorem extractor_claim_counterexample :
    extract_conversation [cxUserBlockEvent] =
      "👤 Usuário: [\x7b\x27type\x27: \x27text\x27, \x27text\x27: \x27hi\x27\x7d]" ∧
    claimExtract [cxUserBlockEvent] = "👤 Usuário: hi" ∧
    extract_conversation [cxUserBlockEvent] ≠ claimExtract [cxUserBlockEvent] := by
  have e1 : extract_conversation [cxUserBlockEvent] =
      "👤 Usuário: [\x7b\x27type\x27: \x27text\x27, \x27text\x27: \x27hi\x27\x7d]" := by
    simp only [extract_conversation, conversationParts, cxUserBlockEvent, mkUserEvent,
      List.filterMap, extractPart, pyStr, pyRepr, pyReprItems, pyReprFields, intStr]
    decide
  refine ⟨e1, rfl, ?_⟩
  rw [e1]
  decide

/-- Joining the collected text blocks succeeds and agrees with the claimed
per-block texts whenever every collected `"text"` value is a string. -/
theorem textBlockValues_mapM (blocks : List Json)
    (h : (textBlockValues blocks).all isStrJson = true) :
    ((textBlockValues blocks).mapM fun part =>
        match part with | Json.str s => some s | _ => none)
      = some (blocks.filterMap claimBlockText) := by
  induction blocks with
  | nil => rfl
  | cons b bs ih =>
    cases b with
    | obj fields =>
      by_cases ht : isStrVal (jget (Json.obj fields) "type" Json.null) "text" = true
      · have hv : textBlockValues (Json.obj fields :: bs) =
            jget (Json.obj fields) "text" (Json.str "") :: textBlockValues bs := by
          simp [textBlockValues, List.filterMap_cons, ht]
        rw [hv] at h ⊢
        rw [List.all_cons, Bool.and_eq_true] at h
        obtain ⟨hs, hrest⟩ := h
        cases hveq : jget (Json.obj fields) "text" (Json.str "") with
        | str s =>
          rw [List.mapM_cons]
          rw [ih hrest]
          have hcb : claimBlockText (Json.obj fields) = some s := by
            simp [claimBlockText, ht, hveq]
          simp [List.filterMap_cons, hcb]
        | num n => rw [hveq] at hs; cases hs
        | bool bb => rw [hveq] at hs; cases hs
        | null => rw [hveq] at hs; cases hs
        | arr l => rw [hveq] at hs; cases hs
        | obj o => rw [hveq] at hs; cases hs
      · have hv : textBlockValues (Json.obj fields :: bs) = textBlockValues bs := by
          simp [textBlockValues, List.filterMap_cons, ht]
        rw [hv] at h ⊢
        have hcb : claimBlockText (Json.obj fields) = none := by
          simp [claimBlockText, ht]
        rw [List.filterMap_cons, hcb]
        exact ih h
    | str s =>
      have hv : textBlockValues (Json.str s :: bs) = textBlockValues bs := by
        simp [textBlockValues, List.filterMap_cons]
      rw [hv] at h ⊢
      rw [List.filterMap_cons]
      have hcb : claimBlockText (Json.str s) = none := by
        simp [claimBlockText, jget, isStrVal]
      rw [hcb]
      exact ih h
    | num n =>
      have hv : textBlockValues (Json.num n :: bs) = textBlockValues bs := by
        simp [textBlockValues, List.filterMap_cons]
      rw [hv] at h ⊢
      rw [List.filterMap_cons]
      have hcb : claimBlockText (Json.num n) = none := by
        simp [claimBlockText, jget, isStrVal]
      rw [hcb]
      exact ih h
    | bool bb =>
      have hv : textBlockValues (Json.bool bb :: bs) = textBlockValues bs := by
        simp [textBlockValues, List.filterMap_cons]
      rw [hv] at h ⊢
      rw [List.filterMap_cons]
      have hcb : claimBlockText (Json.bool bb) = none := by
        simp [claimBlockText, jget, isStrVal]
      rw [hcb]
      exact ih h
    | null =>
      have hv : textBlockValues (Json.null :: bs) = textBlockValues bs := by
        simp [textBlockValues, List.filterMap_cons]
      rw [hv] at h ⊢
      rw [List.filterMap_cons]
      have hcb : claimBlockText Json.null = none := by
        simp [claimBlockText, jget, isStrVal]
      rw [hcb]
      exact ih h
    | arr l =>
      have hv : textBlockValues (Json.arr l :: bs) = textBlockValues bs := by
        simp [textBlockValues, List.filterMap_cons]
      rw [hv] at h ⊢
      rw [List.filterMap_cons]
      have hcb : claimBlockText (Json.arr l) = none := by
        simp [claimBlockText, jget, isStrVal]
      rw [hcb]
      exact ih h

/-- C3 amended: string content is used verbatim for both speakers; for an
assistant event whose content is a list of blocks, the texts of the blocks
tagged `"text"` are joined with newlines (other kinds ignored); for a user
event whose content is a list of blocks, the whole list is rendered via
Python `str()` and used as-is (kept whenever the list is nonempty). -/
theorem extractor_per_event_text :
    (∀ s : String, extractPart (mkUserEvent (.str s)) =
        if s = "" then none else some ("👤 Usuário: " ++ s)) ∧
    (∀ s : String, extractPart (mkAssistantEvent (.str s)) =
        if pyStrip s = "" then none else some ("🤖 Claude: " ++ s)) ∧
    (∀ blocks : List Json, (textBlockValues blocks).all isStrJson = true →
        extractPart (mkAssistantEvent (.arr blocks)) =
          (if pyStrip (String.intercalate "\n" (blocks.filterMap claimBlockText)) = ""
           then none
           else some ("🤖 Claude: " ++
             String.intercalate "\n" (blocks.filterMap claimBlockText)))) ∧
    (∀ blocks : List Json, extractPart (mkUserEvent (.arr blocks)) =
        if blocks.isEmpty then none else some ("👤 Usuário: " ++ pyStr (.arr blocks))) := by
  refine ⟨?_, ?_, ?_, ?_⟩
  · intro s
    have hred : extractPart (mkUserEvent (.str s)) =
        if pyTruthy (.str s) = true then some ("👤 Usuário: " ++ s) else none := rfl
    rw [hred]
    by_cases h : s = ""
    · subst h; rfl
    · rw [if_pos (by simp [pyTruthy, h]), if_neg h]
  · intro s
    have hred : extractPart (mkAssistantEvent (.str s)) =
        if pyStrip s ≠ "" then some ("🤖 Claude: " ++ s) else none := rfl
    rw [hred]
    by_cases h : pyStrip s = ""
    · rw [if_neg (by simpa using h), if_pos h]
    · rw [if_pos h, if_neg h]
  · intro blocks hall
    have hred : extractPart (mkAssistantEvent (.arr blocks)) =
        (match pyJoinLines (textBlockValues blocks) with
         | some fullText =>
           if pyStrip fullText ≠ "" then some ("🤖 Claude: " ++ fullText) else none
         | none => none) := rfl
    rw [hred]
    have hj : pyJoinLines (textBlockValues blocks) =
        some (String.intercalate "\n" (blocks.filterMap claimBlockText)) := by
      show ((textBlockValues blocks).mapM fun part =>
          match part with | Json.str s => some s | _ => none).map
          (String.intercalate "\n") = _
      rw [textBlockValues_mapM blocks hall]
      rfl
    rw [hj]
    by_cases h : pyStrip (String.intercalate "\n" (blocks.filterMap claimBlockText)) = ""
    · simp [h]
    · simp [h]
  · intro blocks
    have hred : extractPart (mkUserEvent (.arr blocks)) =
        if pyTruthy (.arr blocks) = true
        then some ("👤 Usuário: " ++ pyStr (.arr blocks)) else none := rfl
    rw [hred]
    by_cases h : blocks.isEmpty
    · rw [if_neg (by simp [pyTruthy, h]), if_pos h]
    · rw [if_pos (by simp [pyTruthy, h]), if_neg h]

theorem extractor_per_event_text_witness :
    (textBlockValues [Json.obj [("type", Json.str "text"), ("text", Json.str "olá")]]).all
        isStrJson = true ∧
    extractPart (mkAssistantEvent
        (.arr [Json.obj [("type", Json.str "text"), ("text", Json.str "olá")]])) =
      (if pyStrip (String.intercalate "\n"
            ([Json.obj [("type", Json.str "text"), ("text", Json.str "olá")]].filterMap
              claimBlockText)) = ""
       then none
       else some ("🤖 Claude: " ++ String.intercalate "\n"
            ([Json.obj [("type", Json.str "text"), ("text", Json.str "olá")]].filterMap
              claimBlockText))) :=
  ⟨rfl, extractor_per_event_text.2.2.1
    [Json.obj [("type", Json.str "text"), ("text", Json.str "olá")]] rfl⟩

/-- Reduction of `save_summary` to its written-back list and returned id. -/
theorem save_summary_eq (fs : FileState) (directory session_id : String)
    (data : SummaryData) (now : String) :
    save_summary fs directory session_id data now =
      (.stored (takeLast 20
          ((match fs with | .stored entries => entries | _ => []) ++
            [mkStoredSummary directory session_id data now])),
       (mkStoredSummary directory session_id data now).id) := rfl

/-- Reduction of `delete_summary` on a readable file. -/
theorem delete_summary_eq (entries : List StoredSummary) (i : String) :
    delete_summary (.stored entries) i =
      (if (entries.filter (fun s => s.id ≠ i)).length = entries.length
       then (FileState.stored entries, false)
       else (.stored (entries.filter (fun s => s.id ≠ i)), true)) := rfl

/-- C4: saving onto a session that already holds 20 summaries keeps the
latest 20 (the oldest of the prior entries is evicted, the new record is
appended), and listing any store-reachable state returns at most 20
entries. -/
theorem store_retention_cap :
    (∀ (entries : List StoredSummary) (directory session_id : String)
        (data : SummaryData) (now : String),
       entries.length = 20 →
       (save_summary (.stored entries) directory session_id data now).1 =
         .stored (entries.drop 1 ++ [mkStoredSummary directory session_id data now])) ∧
    (∀ fs : FileState, ReachableFile fs → (get_summaries_for_session fs).length ≤ 20) := by
  constructor
  · intro entries d sid data now h20
    rw [save_summary_eq]
    show FileState.stored
        (takeLast 20 (entries ++ [mkStoredSummary d sid data now])) = _
    unfold takeLast
    have h1 : (entries ++ [mkStoredSummary d sid data now]).length - 20 = 1 := by
      simp [List.length_append, h20]
    rw [h1, List.drop_append_of_le_length (by omega)]
  · have key : ∀ fs, ReachableFile fs → ∀ l, fs = .stored l → l.length ≤ 20 := by
      intro fs h
      induction h with
      | init => intro l hl; cases hl
      | save fs d sid data now hfs ih =>
        intro l hl
        rw [save_summary_eq] at hl
        injection hl with hl
        subst hl
        unfold takeLast
        rw [List.length_drop]
        omega
      | del fs i hfs ih =>
        intro l hl
        cases fs with
        | absent => cases hl
        | unreadable => cases hl
        | stored entries =>
          rw [delete_summary_eq] at hl
          by_cases heq : (entries.filter (fun s => s.id ≠ i)).length = entries.length
          · rw [if_pos heq] at hl
            injection hl with hl
            subst hl
            exact ih entries rfl
          · rw [if_neg heq] at hl
            injection hl with hl
            subst hl
            have hle : (entries.filter (fun s => s.id ≠ i)).length ≤ entries.length :=
              List.length_filter_le _ entries
            have h20 := ih entries rfl
            omega
    intro fs h
    cases fs with
    | absent => simp [get_summaries_for_session]
    | unreadable => simp [get_summaries_for_session]
    | stored entries =>
      show (sortNewestFirst entries).length ≤ 20
      rw [length_sortNewestFirst]
      exact key _ h entries rfl

theorem store_retention_cap_witness :
    (List.replicate 20 dummyStored).length = 20 ∧
    (save_summary (.stored (List.replicate 20 dummyStored)) "d" "s" dataNone
        "2024-01-02T00:00:00").1 =
      .stored ((List.replicate 20 dummyStored).drop 1 ++
        [mkStoredSummary "d" "s" dataNone "2024-01-02T00:00:00"]) ∧
    ReachableFile .absent ∧
    (get_summaries_for_session .absent).length ≤ 20 :=
  ⟨by simp, store_retention_cap.1 (List.replicate 20 dummyStored) "d" "s" dataNone
      "2024-01-02T00:00:00" (by simp),
   ReachableFile.init, store_retention_cap.2 .absent ReachableFile.init⟩

/-- C9: `delete` removes exactly the entries whose id matches and reports
`true`; it reports `false` without failing when nothing matches or the file
is absent; and in the a/b/c scenario deleting the middle id leaves exactly
the other two (listed newest first) while deleting it again reports
`false`. -/
theorem delete_removes_matching_id :
    (∀ (entries : List StoredSummary) (i : String),
        entries.any (fun s => s.id = i) = true →
        delete_summary (.stored entries) i =
          (.stored (entries.filter (fun s => s.id ≠ i)), true)) ∧
    (∀ (entries : List StoredSummary) (i : String),
        entries.all (fun s => s.id ≠ i) = true →
        delete_summary (.stored entries) i = (.stored entries, false)) ∧
    (∀ i : String, delete_summary .absent i = (.absent, false)) ∧
    ((delete_summary fsABC idB).2 = true ∧
     (get_summaries_for_session fsAC).map (fun s => s.id) = [idC, idA] ∧
     delete_summary fsAC idB = (fsAC, false)) := by
  refine ⟨?_, ?_, fun i => rfl, rfl, rfl, rfl⟩
  · intro entries i hany
    obtain ⟨s, hs, hsid⟩ := List.any_eq_true.mp hany
    have hsid' : s.id = i := of_decide_eq_true hsid
    rw [delete_summary_eq]
    rw [if_neg]
    intro heq
    have hall := List.filter_length_eq_length.mp heq s hs
    rw [hsid'] at hall
    simp at hall
  · intro entries i hall
    have hfe : entries.filter (fun s => s.id ≠ i) = entries :=
      List.filter_eq_self.mpr (fun a ha => List.all_eq_true.mp hall a ha)
    rw [delete_summary_eq, if_pos (by rw [hfe])]

theorem delete_removes_matching_id_witness :
    [recW].any (fun s => s.id = recW.id) = true ∧
    delete_summary (.stored [recW]) recW.id =
      (.stored ([recW].filter (fun s => s.id ≠ recW.id)), true) :=
  ⟨by simp, delete_removes_matching_id.1 [recW] recW.id (by simp)⟩

/-- A cache hit returns the stored dict unchanged and leaves the state
alone (lines 162-166). -/
theorem session_generate_hit {st : SummState}
    {directory session_id summary_type : String} {v : Res}
    (parse : String → Option Json) (durationOf : Json → Json → String)
    (ext : Nat → ExtOutcome) (sdkOk : Bool) (file : Option (List String)) (now : String)
    (hc : st.cache.lookup (cacheKey directory session_id summary_type) = some v) :
    session_generate parse durationOf ext sdkOk file now st
      directory session_id summary_type = (v, st) := by
  unfold session_generate
  rw [hc]

/-- A cache miss falls through to the fresh computation. -/
theorem session_generate_missed {st : SummState}
    {directory session_id summary_type : String}
    (parse : String → Option Json) (durationOf : Json → Json → String)
    (ext : Nat → ExtOutcome) (sdkOk : Bool) (file : Option (List String)) (now : String)
    (hc : st.cache.lookup (cacheKey directory session_id summary_type) = none) :
    session_generate parse durationOf ext sdkOk file now st
      directory session_id summary_type =
      session_generate_fresh parse durationOf ext sdkOk file now st
        directory session_id summary_type := by
  unfold session_generate
  rw [hc]

/-- A successful result can only come from a successfully initialized SDK. -/
theorem claude_success_requires_sdk (sdkOk : Bool) (outcome : ExtOutcome)
    (conversation_text summary_type : String)
    (h : (claude_generate sdkOk outcome conversation_text summary_type).success = true) :
    sdkOk = true := by
  cases sdkOk
  · simp [claude_generate, failRes] at h
  · rfl

/-- A successful fresh computation appends exactly its result under the
fingerprint and counts exactly one external invocation. -/
theorem session_generate_fresh_success_state
    {st st' : SummState} {r : Res} {directory session_id summary_type : String}
    (parse : String → Option Json) (durationOf : Json → Json → String)
    (ext : Nat → ExtOutcome) (sdkOk : Bool) (lines : List String) (now : String)
    (h : session_generate_fresh parse durationOf ext sdkOk (some lines) now st
        directory session_id summary_type = (r, st'))
    (hs : r.success = true) :
    st'.cache = st.cache ++ [(cacheKey directory session_id summary_type, r)] ∧
    st'.calls = st.calls + 1 := by
  have hred : (if pyStrip (extract_conversation (loadMessages parse lines)) = "" then
      (failRes "Conversa vazia ou não processável", st)
    else session_generate_invoke parse durationOf ext sdkOk lines now st
      directory session_id summary_type) = (r, st') := h
  by_cases hcv : pyStrip (extract_conversation (loadMessages parse lines)) = ""
  · rw [if_pos hcv] at hred
    injection hred with hr hst
    rw [← hr] at hs
    simp [failRes] at hs
  · rw [if_neg hcv] at hred
    unfold session_generate_invoke at hred
    by_cases hcg : (claude_generate sdkOk (ext st.calls)
        (extract_conversation (loadMessages parse lines)) summary_type).success = true
    · rw [if_pos hcg] at hred
      have hsdk := claude_success_requires_sdk _ _ _ _ hcg
      subst hsdk
      cases hm : sessionMetadataOf durationOf (loadMessages parse lines)
          directory session_id with
      | some m =>
        rw [hm] at hred
        injection hred with hr hst
        subst hr
        subst hst
        exact ⟨rfl, rfl⟩
      | none =>
        rw [hm] at hred
        injection hred with hr hst
        rw [← hr] at hs
        simp [metadataErrorRes, failRes] at hs
    · rw [if_neg hcg] at hred
      injection hred with hr hst
      rw [← hr] at hs
      exact absurd hs hcg

/-- C1 amended: two generation requests with the same fingerprint issued
before any cache-clear, the first of which succeeds, return the identical
result dict and invoke the external capability at most once across the two
(the second request is served from the cache whatever the file or the
ambient behaviour meanwhile). -/
theorem cache_replay_idempotent_on_success
    (parse1 parse2 : String → Option Json) (dur1 dur2 : Json → Json → String)
    (ext1 ext2 : Nat → ExtOutcome) (sdk1 sdk2 : Bool)
    (file1 file2 : Option (List String)) (now1 now2 : String)
    (st0 st1 st2 : SummState) (r1 r2 : Res)
    (directory session_id summary_type : String)
    (h1 : session_generate parse1 dur1 ext1 sdk1 file1 now1 st0
        directory session_id summary_type = (r1, st1))
    (h2 : session_generate parse2 dur2 ext2 sdk2 file2 now2 st1
        directory session_id summary_type = (r2, st2))
    (hs : r1.success = true) :
    r2 = r1 ∧ st2.calls ≤ st0.calls + 1 := by
  cases hc : st0.cache.lookup (cacheKey directory session_id summary_type) with
  | some v =>
    rw [session_generate_hit parse1 dur1 ext1 sdk1 file1 now1 hc] at h1
    injection h1 with hr1 hst1
    subst hr1
    subst hst1
    rw [session_generate_hit parse2 dur2 ext2 sdk2 file2 now2 hc] at h2
    injection h2 with hr2 hst2
    subst hr2
    subst hst2
    exact ⟨rfl, by omega⟩
  | none =>
    rw [session_generate_missed parse1 dur1 ext1 sdk1 file1 now1 hc] at h1
    cases file1 with
    | none =>
      injection h1 with hr1 hst1
      rw [← hr1] at hs
      simp [failRes] at hs
    | some lines =>
      obtain ⟨hcache, hcalls⟩ :=
        session_generate_fresh_success_state parse1 dur1 ext1 sdk1 lines now1 h1 hs
      have hl2 : st1.cache.lookup (cacheKey directory session_id summary_type) = some r1 := by
        rw [hcache]
        exact lookup_append_last _ _ _ hc
      rw [session_generate_hit parse2 dur2 ext2 sdk2 file2 now2 hl2] at h2
      injection h2 with hr2 hst2
      subst hr2
      subst hst2
      exact ⟨rfl, by omega⟩

theorem cache_replay_idempotent_on_success_witness :
    wStep1.1.success = true ∧
    (wStep2.1 = wStep1.1 ∧ wStep2.2.calls ≤ 0 + 1) :=
  ⟨rfl, cache_replay_idempotent_on_success parse0 parse0 durationOf0 durationOf0
    extOk extOk true true (some [jsonlLine0]) (some [jsonlLine0]) "t1" "t2"
    ⟨[], 0⟩ wStep1.2 wStep2.2 wStep1.1 wStep2.1 "projw" "sessw" "conciso"
    rfl rfl rfl⟩

/-- C1 fails as stated: when the first request's external invocation raises,
nothing is cached, so a second request with the same fingerprint invokes the
capability again (twice across the two requests) and returns a different
result dict. -/
theorem cache_replay_claim_counterexample :
    cxStep1.1.success = false ∧ cxStep2.1.success = true ∧
    cxStep2.2.calls = 2 ∧ cxStep1.1 ≠ cxStep2.1 :=
  ⟨rfl, rfl, rfl,
   fun h => absurd (congrArg Res.success h)
     (by decide : ¬(cxStep1.1.success = cxStep2.1.success))⟩

/-- C8 amended: an empty or whitespace-only input is rejected with success
`false` and no external invocation — unconditionally for custom content, and
for session conversation text whenever the request is not served from the
cache (a cached result is replayed without inspecting the input). -/
theorem empty_input_rejected_before_invocation :
    (∀ (ext : Nat → ExtOutcome) (sdkOk : Bool) (calls : Nat)
        (now custom_content summary_type : String),
        pyStrip custom_content = "" →
        (generate_summary_from_content ext sdkOk calls now
            custom_content summary_type).1.success = false ∧
        (generate_summary_from_content ext sdkOk calls now
            custom_content summary_type).2 = calls) ∧
    (∀ (parse : String → Option Json) (durationOf : Json → Json → String)
        (ext : Nat → ExtOutcome) (sdkOk : Bool) (lines : List String) (now : String)
        (st : SummState) (directory session_id summary_type : String),
        st.cache.lookup (cacheKey directory session_id summary_type) = none →
        pyStrip (extract_conversation (loadMessages parse lines)) = "" →
        (session_generate parse durationOf ext sdkOk (some lines) now st
            directory session_id summary_type).1.success = false ∧
        (session_generate parse durationOf ext sdkOk (some lines) now st
            directory session_id summary_type).2.calls = st.calls) := by
  constructor
  · intro ext sdkOk calls now content sty h
    unfold generate_summary_from_content
    rw [if_pos h]
    exact ⟨rfl, rfl⟩
  · intro parse durationOf ext sdkOk lines now st d sid sty hc hconv
    rw [session_generate_missed parse durationOf ext sdkOk (some lines) now hc]
    have hred : session_generate_fresh parse durationOf ext sdkOk (some lines) now st
        d sid sty =
        (if pyStrip (extract_conversation (loadMessages parse lines)) = "" then
          (failRes "Conversa vazia ou não processável", st)
        else session_generate_invoke parse durationOf ext sdkOk lines now st
          d sid sty) := rfl
    rw [hred, if_pos hconv]
    exact ⟨rfl, rfl⟩

theorem empty_input_rejected_before_invocation_witness :
    pyStrip "   " = "" ∧
    ((generate_summary_from_content extOk true 0 "t" "   " "conciso").1.success = false ∧
     (generate_summary_from_content extOk true 0 "t" "   " "conciso").2 = 0) :=
  ⟨rfl, empty_input_rejected_before_invocation.1 extOk true 0 "t" "   " "conciso" rfl⟩

/-- C8 fails as stated for session conversation text served from the cache:
after a successful generation, the session file becomes empty, yet a second
request for the same fingerprint replays the cached dict with success `true`
(the external capability is still not invoked). -/
theorem empty_input_claim_counterexample :
    pyStrip (extract_conversation (loadMessages parse0 [])) = "" ∧
    c8Step2.1.success = true ∧
    c8Step2.2.calls = c8Step1.2.calls :=
  ⟨rfl, rfl, rfl⟩
